import Mathlib

/-!
Verification of the backend lifecycle supervisor found in
`src/desktop/src-tauri/src/main.rs` of the PersonalCRM repository.

The supervisor reserves a free TCP port, loads `.env` overrides, launches a
backend child process with a composed environment, polls a health endpoint,
exposes the backend URL, and kills the child when the window closes.

All definitions below are shallow embeddings of the Rust source:
  - strings are modelled as `List Char` where the source manipulates `&str`
    contents, and as Lean `String` where the source passes whole strings;
  - fallible operations return `Option`/`Except`; the value `none` of an
    outer `Option` marks a Rust panic;
  - the ambient world (filesystem, OS port assignment, HTTP responses,
    parent environment) is passed in explicitly.
-/

namespace PersonalCRM

/-! ### Character constants (quote characters written via code points to keep
the file free of quote-character literals) -/

def dquoteChar : Char := Char.ofNat 34

def squoteChar : Char := Char.ofNat 39

def hashChar : Char := '#'

def eqChar : Char := '='

def nlChar : Char := '\n'

def crChar : Char := '\r'

/-! ### Rust string primitives used by the env parser -/

/-- The Unicode White_Space property, as used by Rust `str::trim`. -/
def rustIsWhitespace (c : Char) : Bool :=
  let n := c.toNat
  n == 9 || n == 10 || n == 11 || n == 12 || n == 13 || n == 32 ||
  n == 133 || n == 160 || n == 5760 || (8192 ≤ n && n ≤ 8202) ||
  n == 8232 || n == 8233 || n == 8239 || n == 8287 || n == 12288

/-- Drop leading whitespace characters. -/
def trimLeftChars : List Char → List Char
  | [] => []
  | c :: cs => if rustIsWhitespace c then trimLeftChars cs else c :: cs

/-- Rust `str::trim`: drop leading and trailing whitespace. -/
def rustTrim (s : List Char) : List Char :=
  (trimLeftChars ((trimLeftChars s).reverse)).reverse

/-- Rust `str::split_once(sep)`: split at the first occurrence of `sep`. -/
def splitOnce (sep : Char) : List Char → Option (List Char × List Char)
  | [] => none
  | c :: cs =>
    if c == sep then some ([], cs)
    else
      match splitOnce sep cs with
      | none => none
      | some p => some (c :: p.1, p.2)

/-- Remove a single trailing carriage return, as Rust `str::lines` does for
each line terminated by a newline. -/
def stripCr (l : List Char) : List Char :=
  if l.getLast? == some crChar then l.dropLast else l

/-- Helper for `rustLines`: `acc` holds the current line reversed. -/
def rustLinesAux : List Char → List Char → List (List Char)
  | acc, [] => if acc.isEmpty then [] else [acc.reverse]
  | acc, c :: cs =>
    if c == nlChar then stripCr acc.reverse :: rustLinesAux [] cs
    else rustLinesAux (c :: acc) cs

/-- Rust `str::lines`: split on newline characters, strip a carriage return
that directly precedes a newline, and do not emit a final empty line for a
trailing newline. -/
def rustLines (s : List Char) : List (List Char) :=
  rustLinesAux [] s

/-! ### The env-file line parser (main.rs lines 39-50)

The Rust code, per line: trim; skip the line when empty or starting with the
hash character; split once on the equals character into key and value; trim
both; when the value starts and ends with the double-quote character, or
starts and ends with the single-quote character, replace it by the byte slice
from index 1 to index len-1.

That byte slice panics when the value is a single quote character: the range
is then 1..0.  The embedding returns `none` for a panic. -/

/-- One step of the quote-stripping branch. The result `none` marks the Rust
panic raised by the slice `val[1..val.len()-1]` when `val.len() == 1`. -/
def stripQuotes (val : List Char) : Option (List Char) :=
  if (val.head? == some dquoteChar && val.getLast? == some dquoteChar) ||
     (val.head? == some squoteChar && val.getLast? == some squoteChar) then
    if val.length ≤ 1 then none else some ((val.drop 1).dropLast)
  else some val

/-- Parse one line of the env file.  `none` = panic; `some none` = the line is
skipped (blank, comment, or without an equals sign); `some (some (k, v))` =
the line yields the override `(k, v)`. -/
def parseLine (rawLine : List Char) : Option (Option (List Char × List Char)) :=
  let line := rustTrim rawLine
  if line.isEmpty then some none
  else if line.head? == some hashChar then some none
  else
    match splitOnce eqChar line with
    | none => some none
    | some kv =>
      let key := rustTrim kv.1
      let val := rustTrim kv.2
      match stripQuotes val with
      | none => none
      | some v => some (some (key, v))

/-- Parse all lines in order, collecting the overrides; a panic on any line
(`none`) aborts the whole parse. -/
def parseLinesAux : List (List Char) → Option (List (List Char × List Char))
  | [] => some []
  | l :: ls =>
    match parseLine l with
    | none => none
    | some none => parseLinesAux ls
    | some (some kv) =>
      match parseLinesAux ls with
      | none => none
      | some rest => some (kv :: rest)

/-! ### Candidate file search (main.rs lines 23-37) -/

def envCandidate1 : String := "../../.env"

def envCandidate2 : String := "../../../.env"

def envCandidate3 : String := ".env"

def envCandidates : List String := [envCandidate1, envCandidate2, envCandidate3]

/-- Return the contents of the first candidate path that the filesystem can
read, mirroring the `for p in candidates { if let Ok(c) = read_to_string(p)
{ ...; break } }` loop. -/
def firstReadable (fsRead : String → Option (List Char)) :
    List String → Option (List Char)
  | [] => none
  | p :: ps =>
    match fsRead p with
    | some c => some c
    | none => firstReadable fsRead ps

def loadEnvContent (fsRead : String → Option (List Char)) : Option (List Char) :=
  firstReadable fsRead envCandidates

/-- The whole environment loader: pick the first readable candidate file and
parse it; with no readable candidate the override list is empty.  The outer
`none` marks a panic escaping from the line parser. -/
def loadOverrides (fsRead : String → Option (List Char)) :
    Option (List (List Char × List Char)) :=
  match loadEnvContent fsRead with
  | none => some []
  | some content => parseLinesAux (rustLines content)

/-! ### Child environment composition (main.rs lines 55-61) -/

def PORT_KEY : String := "PORT"

/-- `Command::env(k, v)`: the child environment maps `k` to `v`, keeping every
other binding. -/
def envSet (e : String → Option String) (k v : String) : String → Option String :=
  fun x => if x = k then some v else e x

/-- Apply the override list in order, mirroring
`for (k, v) in extra_env { cmd.env(k, v); }`. -/
def applyOverrides (base : String → Option String) :
    List (String × String) → String → Option String
  | [] => base
  | kv :: rest => applyOverrides (envSet base kv.1 kv.2) rest

/-- The child environment built by `spawn_backend`: the parent environment,
then `PORT` set to the reserved port, then the loaded overrides in order. -/
def composeChildEnv (parent : String → Option String) (port : Nat)
    (ovs : List (String × String)) : String → Option String :=
  applyOverrides (envSet parent PORT_KEY (Nat.repr port)) ovs

/-- Value of the last override for key `k`, if any. -/
def lastAssoc (k : String) : List (String × String) → Option String
  | [] => none
  | kv :: rest =>
    match lastAssoc k rest with
    | some v => some v
    | none => if kv.1 = k then some kv.2 else none

/-! ### Readiness probe loop (main.rs lines 79-87)

The Rust code: a for loop over 0..100; each iteration issues the HTTP GET
with a 100ms timeout; when the call yields a response whose status equals
200 the loop breaks; otherwise the iteration ends with a 100ms sleep.

The probe outcome of attempt `i` is `probe i : Option Nat` — `some s` for a
response carrying status code `s`, `none` for any transport error or
timeout. -/

def healthAttempts : Nat := 100

def healthTimeoutMs : Nat := 100

def healthIntervalMs : Nat := 100

/-- The timeout figure claimed by the source comment `// Poll health until
ready (timeout ~5s)`. -/
def commentClaimedBudgetMs : Nat := 5000

/-- An attempt breaks the loop exactly when the call returned a response whose
status code equals 200. -/
def isSuccess (r : Option Nat) : Bool :=
  match r with
  | some s => s == 200
  | none => false

/-- Run the probe loop with `fuel` attempts remaining, the next attempt having
index `i`.  Returns `(attempts made, sleeps performed, success?)`. -/
def runProbeLoop (probe : Nat → Option Nat) : Nat → Nat → Nat × Nat × Bool
  | 0, _ => (0, 0, false)
  | n + 1, i =>
    if isSuccess (probe i) then (1, 0, true)
    else
      ((runProbeLoop probe n (i + 1)).1 + 1,
       (runProbeLoop probe n (i + 1)).2.1 + 1,
       (runProbeLoop probe n (i + 1)).2.2)

/-- The readiness prober as called by `spawn_backend`. -/
def wait_ready (probe : Nat → Option Nat) : Nat × Nat × Bool :=
  runProbeLoop probe healthAttempts 0

/-- Elapsed milliseconds of the probe loop, when attempt `i` takes `dur i`
milliseconds: a successful attempt ends the loop with no interval sleep; any
other attempt is followed by a sleep of `healthIntervalMs`. -/
def runProbeTimed (probe : Nat → Option Nat) (dur : Nat → Nat) :
    Nat → Nat → Nat
  | 0, _ => 0
  | n + 1, i =>
    if isSuccess (probe i) then dur i
    else dur i + healthIntervalMs + runProbeTimed probe dur n (i + 1)

/-! ### URLs (main.rs lines 11-14 and 81) -/

def urlBase : String := "http://127.0.0.1:"

def healthPath : String := "/health"

/-- The `get_backend_url` Tauri command: `format!("http://127.0.0.1:{}", port)`
applied to the stored backend state. -/
def get_backend_url (port : Nat) : String := urlBase ++ Nat.repr port

/-! ### The spawn pipeline (main.rs lines 16-90) -/

/-- The three conditions that abort startup: the two `expect` calls, and the
panic escaping the quote-stripping slice of the env parser. -/
inductive StartupAbort
  | bindFailure
  | envParsePanic
  | spawnFailure
deriving DecidableEq

/-- The `expect` message of the port-reservation stage (main.rs line 18). -/
def bindExpectMsg : String := "failed to bind port 0"

/-- The `expect` message of the spawn stage (main.rs line 62). -/
def spawnExpectMsg : String := "failed to start backend"

/-- The message each abort carries: `expect` messages for the two intended
fatal conditions, the slice panic message for the parser bug. -/
def abortMessage : StartupAbort → String :=
  fun a =>
    match a with
    | StartupAbort.bindFailure => "failed to bind port 0"
    | StartupAbort.envParsePanic => "byte index out of range in quote stripping"
    | StartupAbort.spawnFailure => "failed to start backend"

/-- The ambient world `spawn_backend` interacts with. -/
structure SpawnWorld where
  bindResult : Option Nat
  fsRead : String → Option (List Char)
  spawnOk : Bool
  probe : Nat → Option Nat
  parentEnv : String → Option String

/-- What `spawn_backend` produces on success. -/
structure SpawnResult where
  port : Nat
  overrides : List (String × String)
  childEnv : String → Option String
  probeUrl : String
  attemptsMade : Nat
  ready : Bool

def ovToString (kv : List Char × List Char) : String × String :=
  (String.mk kv.1, String.mk kv.2)

/-- Shallow embedding of `spawn_backend`: reserve a port (panics on bind
failure), load overrides (panics on the quote bug), spawn the child with the
composed environment (panics on spawn failure), then run the readiness
probe. -/
def spawn_backend (w : SpawnWorld) : Except StartupAbort SpawnResult :=
  match w.bindResult with
  | none => Except.error StartupAbort.bindFailure
  | some port =>
    match loadOverrides w.fsRead with
    | none => Except.error StartupAbort.envParsePanic
    | some ovs =>
      if w.spawnOk then
        Except.ok
          ⟨port,
           ovs.map ovToString,
           composeChildEnv w.parentEnv port (ovs.map ovToString),
           urlBase ++ Nat.repr port ++ healthPath,
           (wait_ready w.probe).1,
           (wait_ready w.probe).2.2⟩
      else Except.error StartupAbort.spawnFailure

def exceptIsOk : Except StartupAbort SpawnResult → Bool :=
  fun e =>
    match e with
    | Except.ok _ => true
    | Except.error _ => false

/-! ### Shutdown path (main.rs lines 103-112)

The Rust code wraps the child handle in an `Arc<Mutex<Child>>`; the window
event handler, on a CloseRequested event, takes the lock and calls `kill()`
on the child, binding the result to the wildcard pattern so any error is
discarded. -/

inductive ChildStatus
  | running
  | exited
deriving DecidableEq

def killAlreadyExitedMsg : String := "invalid argument: could not kill exited process"

/-- `Child::kill`: terminates a running child; on an already-exited child it
returns an error and changes nothing. -/
def killChild : ChildStatus → ChildStatus × Except String Unit :=
  fun s =>
    match s with
    | ChildStatus.running => (ChildStatus.exited, Except.ok ())
    | ChildStatus.exited => (ChildStatus.exited, Except.error killAlreadyExitedMsg)

/-- The close-event handler: take the lock if possible and kill the child,
discarding any error (`let _ = ch.kill();`).  It returns only the new child
status — no error can escape it. -/
def closeRequestedHandler (lockOk : Bool) (s : ChildStatus) : ChildStatus :=
  if lockOk then (killChild s).1 else s

/-! ### Concrete worlds used to exercise the pipeline -/

/-- A health endpoint that never answers. -/
def probeNever : Nat → Option Nat := fun _ => none

/-- A health endpoint that answers 200 on the third attempt (index 2). -/
def probeThird : Nat → Option Nat := fun i => if i == 2 then some 200 else none

/-- Full per-attempt duration: every attempt runs into its timeout. -/
def durFull : Nat → Nat := fun _ => healthTimeoutMs

def emptyEnv : String → Option String := fun _ => none

/-- A filesystem with no readable candidate file. -/
def fsNone : String → Option (List Char) := fun _ => none

/-! ### Helper lemmas about the probe loop -/

theorem runProbeLoop_succ (probe : Nat → Option Nat) (n i : Nat) :
    runProbeLoop probe (n + 1) i =
      if isSuccess (probe i) then (1, 0, true)
      else
        ((runProbeLoop probe n (i + 1)).1 + 1,
         (runProbeLoop probe n (i + 1)).2.1 + 1,
         (runProbeLoop probe n (i + 1)).2.2) := rfl

theorem isSuccess_false_of_ne {r : Option Nat} (h : r ≠ some 200) :
    isSuccess r = false := by
  cases r with
  | none => rfl
  | some s =>
    have hs : s ≠ 200 := fun he => h (by rw [he])
    simpa [isSuccess] using hs

theorem isSuccess_true_of_eq {r : Option Nat} (h : r = some 200) :
    isSuccess r = true := by
  rw [h]; rfl

theorem runProbeLoop_exhaust (probe : Nat → Option Nat)
    (hp : ∀ i, isSuccess (probe i) = false) :
    ∀ n i, runProbeLoop probe n i = (n, n, false) := by
  intro n
  induction n with
  | zero => intro i; rfl
  | succ n ih =>
    intro i
    rw [runProbeLoop_succ, hp i]
    simp [ih (i + 1)]

theorem runProbeLoop_attempts_le (probe : Nat → Option Nat) :
    ∀ n i, (runProbeLoop probe n i).1 ≤ n := by
  intro n
  induction n with
  | zero => intro i; exact Nat.le_refl 0
  | succ n ih =>
    intro i
    rw [runProbeLoop_succ]
    by_cases h : isSuccess (probe i) = true
    · rw [if_pos h]
      exact Nat.succ_le_succ (Nat.zero_le n)
    · rw [if_neg h]
      exact Nat.succ_le_succ (ih (i + 1))

theorem runProbeTimed_succ (probe : Nat → Option Nat) (dur : Nat → Nat)
    (n i : Nat) :
    runProbeTimed probe dur (n + 1) i =
      if isSuccess (probe i) then dur i
      else dur i + healthIntervalMs + runProbeTimed probe dur n (i + 1) := rfl

theorem runProbeTimed_le (probe : Nat → Option Nat) (dur : Nat → Nat) (T : Nat)
    (hT : ∀ j, dur j ≤ T) :
    ∀ n i, runProbeTimed probe dur n i ≤ n * (T + healthIntervalMs) := by
  intro n
  induction n with
  | zero => intro i; exact Nat.zero_le _
  | succ n ih =>
    intro i
    rw [runProbeTimed_succ]
    by_cases h : isSuccess (probe i) = true
    · rw [if_pos h]
      calc dur i ≤ T := hT i
        _ ≤ T + healthIntervalMs := Nat.le_add_right _ _
        _ ≤ (n + 1) * (T + healthIntervalMs) :=
          Nat.le_mul_of_pos_left _ (Nat.succ_pos n)
    · rw [if_neg h]
      calc dur i + healthIntervalMs + runProbeTimed probe dur n (i + 1)
          ≤ T + healthIntervalMs + n * (T + healthIntervalMs) :=
            Nat.add_le_add (Nat.add_le_add_right (hT i) _) (ih (i + 1))
        _ = (n + 1) * (T + healthIntervalMs) := by ring

/-- Claim C1: the readiness prober makes at most 100 attempts, each with a
100ms timeout; on a 200 response it stops immediately with no further
attempt and no further interval sleep; on any error or non-200 status it
sleeps the 100ms interval and retries; an endpoint first answering 200 on
the third attempt sees exactly 3 attempts (and only 2 interval sleeps); an
endpoint never answering 200 sees exactly 100 attempts (and 100 sleeps) and
the prober still returns a value. -/
theorem wait_ready_polling_contract :
    healthAttempts = 100 ∧ healthTimeoutMs = 100 ∧ healthIntervalMs = 100 ∧
    (∀ p : Nat → Option Nat, (wait_ready p).1 ≤ 100) ∧
    (∀ p : Nat → Option Nat, p 0 ≠ some 200 → p 1 ≠ some 200 → p 2 = some 200 →
      wait_ready p = (3, 2, true)) ∧
    (∀ q : Nat → Option Nat, (∀ i, q i ≠ some 200) →
      wait_ready q = (100, 100, false)) := by
  refine ⟨rfl, rfl, rfl, ?_, ?_, ?_⟩
  · intro p
    exact runProbeLoop_attempts_le p 100 0
  · intro p h0 h1 h2
    have f0 := isSuccess_false_of_ne h0
    have f1 := isSuccess_false_of_ne h1
    have t2 := isSuccess_true_of_eq h2
    have e2 : runProbeLoop p 98 2 = (1, 0, true) := by
      rw [show (98 : Nat) = 97 + 1 from rfl, runProbeLoop_succ, t2]
      simp
    have e1 : runProbeLoop p 99 1 = (2, 1, true) := by
      rw [show (99 : Nat) = 98 + 1 from rfl, runProbeLoop_succ, f1]
      simp [e2]
    show runProbeLoop p 100 0 = (3, 2, true)
    rw [show (100 : Nat) = 99 + 1 from rfl, runProbeLoop_succ, f0]
    simp [e1]
  · intro q hq
    have hq2 : ∀ i, isSuccess (q i) = false := fun i => isSuccess_false_of_ne (hq i)
    exact runProbeLoop_exhaust q hq2 100 0

theorem wait_ready_polling_contract_witness :
    wait_ready probeThird = (3, 2, true) ∧
    wait_ready probeNever = (100, 100, false) := by
  constructor
  · exact wait_ready_polling_contract.2.2.2.2.1 probeThird
      (by decide) (by decide) (by decide)
  · exact wait_ready_polling_contract.2.2.2.2.2 probeNever
      (fun i h => Option.noConfusion h)

set_option maxRecDepth 8000 in
/-- Claim C9: with the constants of the source (100 attempts, 100ms
per-attempt timeout, 100ms interval), the worst-case total wait of the probe
loop is attempts times (timeout plus interval) = 20000ms = 20 seconds, and
this worst case is attained when every attempt runs into its timeout; it is
not the 5 seconds stated by the source comment. -/
theorem probe_worst_case_budget :
    (∀ (p : Nat → Option Nat) (dur : Nat → Nat),
      (∀ j, dur j ≤ healthTimeoutMs) →
      runProbeTimed p dur healthAttempts 0 ≤
        healthAttempts * (healthTimeoutMs + healthIntervalMs)) ∧
    runProbeTimed probeNever durFull healthAttempts 0 =
      healthAttempts * (healthTimeoutMs + healthIntervalMs) ∧
    healthAttempts * (healthTimeoutMs + healthIntervalMs) = 20000 ∧
    commentClaimedBudgetMs = 5000 ∧
    healthAttempts * (healthTimeoutMs + healthIntervalMs) ≠ commentClaimedBudgetMs := by
  refine ⟨?_, ?_, by decide, rfl, by decide⟩
  · intro p dur h
    exact runProbeTimed_le p dur healthTimeoutMs h healthAttempts 0
  · rfl

theorem probe_worst_case_budget_witness :
    runProbeTimed probeNever durFull healthAttempts 0 ≤
      healthAttempts * (healthTimeoutMs + healthIntervalMs) :=
  probe_worst_case_budget.1 probeNever durFull (fun _ => Nat.le_refl _)

/-! ### Helper lemmas about environment composition -/

theorem applyOverrides_of_lastAssoc_none :
    ∀ (ovs : List (String × String)) (base : String → Option String) (x : String),
      lastAssoc x ovs = none → applyOverrides base ovs x = base x := by
  intro ovs
  induction ovs with
  | nil => intro base x _; rfl
  | cons kv rest ih =>
    intro base x h
    have hrest : lastAssoc x rest = none := by
      cases hr : lastAssoc x rest with
      | none => rfl
      | some v =>
        simp only [lastAssoc, hr] at h
        exact h
    have hkv : kv.1 ≠ x := by
      intro hx
      simp only [lastAssoc, hrest, if_pos hx] at h
      exact Option.noConfusion h
    show applyOverrides (envSet base kv.1 kv.2) rest x = base x
    rw [ih _ _ hrest]
    simp only [envSet, if_neg (Ne.symm hkv)]

theorem applyOverrides_of_lastAssoc_some :
    ∀ (ovs : List (String × String)) (base : String → Option String) (x v : String),
      lastAssoc x ovs = some v → applyOverrides base ovs x = some v := by
  intro ovs
  induction ovs with
  | nil =>
    intro base x v h
    simp only [lastAssoc] at h
    exact Option.noConfusion h
  | cons kv rest ih =>
    intro base x v h
    cases hr : lastAssoc x rest with
    | some v2 =>
      have hv : v2 = v := by
        simp only [lastAssoc, hr] at h
        exact Option.some.inj h
      subst hv
      exact ih _ _ _ hr
    | none =>
      simp only [lastAssoc, hr] at h
      by_cases hx : kv.1 = x
      · rw [if_pos hx] at h
        have hv : kv.2 = v := Option.some.inj h
        show applyOverrides (envSet base kv.1 kv.2) rest x = some v
        rw [applyOverrides_of_lastAssoc_none rest _ x hr]
        simp only [envSet, if_pos (Eq.symm hx), hv]
      · rw [if_neg hx] at h
        exact Option.noConfusion h

/-! ### Concrete override data for the duplicate-key scenario -/

def keyA : String := "A"

def keyB : String := "B"

def valOne : String := "1"

def valTwo : String := "2"

def parentVal : String := "from-parent"

/-- The override sequence [(A,1),(A,2)] of the duplicate-key scenario. -/
def envDupAA : List (String × String) := [(keyA, valOne), (keyA, valTwo)]

def parentEnvEx : String → Option String :=
  fun x => if x = keyB then some parentVal else none

/-- Claim C4: the launcher composes the child environment by first setting
PORT to the reserved port and then applying every override in order, later
entries for the same key overriding earlier ones; for overrides
[(A,1),(A,2)] the effective value of A is 2; keys not assigned keep their
parent-environment value, so the result extends the parent environment
rather than replacing it. -/
theorem child_env_composition (parent : String → Option String) (port : Nat) :
    (∀ (ovs : List (String × String)) (x v : String),
      lastAssoc x ovs = some v → composeChildEnv parent port ovs x = some v) ∧
    (∀ (ovs : List (String × String)) (x : String),
      lastAssoc x ovs = none → x ≠ PORT_KEY →
      composeChildEnv parent port ovs x = parent x) ∧
    (∀ ovs : List (String × String),
      lastAssoc PORT_KEY ovs = none →
      composeChildEnv parent port ovs PORT_KEY = some (Nat.repr port)) ∧
    composeChildEnv parent port envDupAA keyA = some valTwo := by
  refine ⟨?_, ?_, ?_, ?_⟩
  · intro ovs x v h
    exact applyOverrides_of_lastAssoc_some ovs _ x v h
  · intro ovs x h hx
    show applyOverrides (envSet parent PORT_KEY (Nat.repr port)) ovs x = parent x
    rw [applyOverrides_of_lastAssoc_none ovs _ x h]
    simp only [envSet, if_neg hx]
  · intro ovs h
    show applyOverrides (envSet parent PORT_KEY (Nat.repr port)) ovs PORT_KEY =
      some (Nat.repr port)
    rw [applyOverrides_of_lastAssoc_none ovs _ PORT_KEY h]
    simp [envSet]
  · exact applyOverrides_of_lastAssoc_some envDupAA _ keyA valTwo (by decide)

theorem child_env_composition_witness :
    composeChildEnv parentEnvEx 4321 envDupAA keyA = some valTwo ∧
    composeChildEnv parentEnvEx 4321 envDupAA keyB = parentEnvEx keyB ∧
    composeChildEnv parentEnvEx 4321 envDupAA PORT_KEY = some (Nat.repr 4321) := by
  refine ⟨?_, ?_, ?_⟩
  · exact (child_env_composition parentEnvEx 4321).1 envDupAA keyA valTwo (by decide)
  · exact (child_env_composition parentEnvEx 4321).2.1 envDupAA keyB
      (by decide) (by decide)
  · exact (child_env_composition parentEnvEx 4321).2.2.1 envDupAA (by decide)

/-- Claim C5: the shutdown path is idempotent in effect and never crashes:
running the close-event handler twice leaves the same state as running it
once; running it on an already-exited child changes nothing and produces no
error even though the underlying kill call reports one — the handler
swallows it; and when the lock cannot be taken the handler also returns
normally. -/
theorem shutdown_idempotent_and_swallowed (s : ChildStatus) (lk : Bool) :
    closeRequestedHandler true (closeRequestedHandler true s) =
      closeRequestedHandler true s ∧
    closeRequestedHandler true ChildStatus.exited = ChildStatus.exited ∧
    closeRequestedHandler true ChildStatus.running = ChildStatus.exited ∧
    (killChild ChildStatus.exited).2 = Except.error killAlreadyExitedMsg ∧
    closeRequestedHandler lk (closeRequestedHandler lk s) =
      closeRequestedHandler lk s := by
  cases s <;> cases lk <;> exact ⟨rfl, rfl, rfl, rfl, rfl⟩

theorem shutdown_idempotent_and_swallowed_witness :
    closeRequestedHandler true (closeRequestedHandler true ChildStatus.running) =
      closeRequestedHandler true ChildStatus.running ∧
    closeRequestedHandler true ChildStatus.exited = ChildStatus.exited := by
  have h := shutdown_idempotent_and_swallowed ChildStatus.running true
  exact ⟨h.1, h.2.1⟩

/-! ### Concrete env-file lines for the parser claims -/

def keyS : String := "KEY"

def valueS : String := "value"

def lineQuotedS : String := "KEY=\"value\""

def linePlainS : String := "KEY=value"

def keyEqS : String := "KEY="

def sqInnerS : String := "va\"lue"

/-- The line KEY= followed by the value va"lue wrapped in single quotes. -/
def lineSquoted : List Char :=
  String.toList keyEqS ++ [squoteChar] ++ String.toList sqInnerS ++ [squoteChar]

/-- The line KEY= followed by a lone double-quote character. -/
def lineLoneDquote : List Char := String.toList keyEqS ++ [dquoteChar]

/-- Claim C2: per line, the loader trims, skips blanks and comments, splits
on the first equals sign, trims key and value, and strips one layer of
matching quotes; KEY="value" yields (KEY, value), KEY=value yields
(KEY, value) unchanged, and KEY= followed by va"lue in single quotes yields
(KEY, va"lue).  However the claim fails on a line whose trimmed value is a
lone quote character: there the claim prescribes the override (KEY, ") —
a single character is not wrapped in a pair of quotes — while the code
panics (the byte slice with range 1..0), shown by the final conjunct. -/
theorem env_line_parsing_and_quote_panic :
    parseLine (String.toList lineQuotedS) =
      some (some (String.toList keyS, String.toList valueS)) ∧
    parseLine (String.toList linePlainS) =
      some (some (String.toList keyS, String.toList valueS)) ∧
    parseLine lineSquoted =
      some (some (String.toList keyS, String.toList sqInnerS)) ∧
    parseLine lineLoneDquote = none := by
  refine ⟨by decide, by decide, by decide, by decide⟩

/-! ### Concrete env files -/

def goodLineS : String := "GOOD=1"

/-- File contents: the line GOOD=1, then the line KEY= followed by a lone
single-quote character. -/
def bugContent : List Char :=
  String.toList goodLineS ++ [nlChar] ++
  String.toList keyEqS ++ [squoteChar] ++ [nlChar]

/-- A filesystem whose first candidate env file holds `bugContent`. -/
def fsBugEnvFile : String → Option (List Char) :=
  fun p => if p = envCandidate1 then some bugContent else none

/-- Claim C3: the claim says parsing never panics for any input text; the
code violates it: on an env file whose second line has a lone single-quote
character as its value, the panic of the quote-stripping slice escapes the
environment-loader boundary (modelled as the `none` result). -/
theorem env_loader_panics_on_lone_quote :
    loadOverrides fsBugEnvFile = none := by decide

/-! ### Filesystems for the candidate-search claim -/

def content1 : List Char := String.toList goodLineS

def fsOnly1 : String → Option (List Char) :=
  fun p => if p = envCandidate1 then some content1 else none

def fsOnly2 : String → Option (List Char) :=
  fun p => if p = envCandidate2 then some content1 else none

def fsOnly3 : String → Option (List Char) :=
  fun p => if p = envCandidate3 then some content1 else none

/-- Claim C7: the loader searches the fixed candidate list (two levels up,
three levels up, current directory) in order and uses the first readable
file, ignoring all later candidates; with no readable candidate it yields
the empty override sequence, and that is a normal result, not an error. -/
theorem env_candidate_search_first_match
    (f1 f2 f3 f4 : String → Option (List Char)) :
    envCandidates = [envCandidate1, envCandidate2, envCandidate3] ∧
    ((f1 envCandidate1 = none ∧ f1 envCandidate2 = none ∧
      f1 envCandidate3 = none) → loadOverrides f1 = some []) ∧
    (∀ c, f2 envCandidate1 = some c → loadEnvContent f2 = some c) ∧
    (∀ c, f3 envCandidate1 = none → f3 envCandidate2 = some c →
      loadEnvContent f3 = some c) ∧
    (∀ c, f4 envCandidate1 = none → f4 envCandidate2 = none →
      f4 envCandidate3 = some c → loadEnvContent f4 = some c) := by
  refine ⟨rfl, ?_, ?_, ?_, ?_⟩
  · rintro ⟨h1, h2, h3⟩
    have hc : loadEnvContent f1 = none := by
      simp [loadEnvContent, envCandidates, firstReadable, h1, h2, h3]
    simp [loadOverrides, hc]
  · intro c h
    simp [loadEnvContent, envCandidates, firstReadable, h]
  · intro c h1 h2
    simp [loadEnvContent, envCandidates, firstReadable, h1, h2]
  · intro c h1 h2 h3
    simp [loadEnvContent, envCandidates, firstReadable, h1, h2, h3]

theorem env_candidate_search_first_match_witness :
    loadOverrides fsNone = some [] ∧
    loadEnvContent fsOnly1 = some content1 ∧
    loadEnvContent fsOnly2 = some content1 ∧
    loadEnvContent fsOnly3 = some content1 := by
  have h := env_candidate_search_first_match fsNone fsOnly1 fsOnly2 fsOnly3
  exact ⟨h.2.1 ⟨rfl, rfl, rfl⟩,
         h.2.2.1 content1 (by decide),
         h.2.2.2.1 content1 (by decide) (by decide),
         h.2.2.2.2 content1 (by decide) (by decide) (by decide)⟩

/-! ### Concrete spawn worlds -/

/-- Bind succeeds on port 4321, no env file, spawn succeeds, health endpoint
never answers. -/
def wOk : SpawnWorld := ⟨some 4321, fsNone, true, probeNever, emptyEnv⟩

/-- The result `spawn_backend` produces on `wOk`. -/
def rOk : SpawnResult :=
  ⟨4321, [], composeChildEnv emptyEnv 4321 [],
   urlBase ++ Nat.repr 4321 ++ healthPath, 100, false⟩

/-- The OS refuses to bind any ephemeral port. -/
def wBindFail : SpawnWorld := ⟨none, fsNone, true, probeNever, emptyEnv⟩

/-- The child executable cannot be spawned. -/
def wSpawnFail : SpawnWorld := ⟨some 4321, fsNone, false, probeNever, emptyEnv⟩

/-- Bind and spawn would both succeed, but the env file content triggers the
quote-stripping panic. -/
def wQuoteBug : SpawnWorld := ⟨some 4321, fsBugEnvFile, true, probeNever, emptyEnv⟩

set_option maxRecDepth 8000 in
/-- Claim C8: the claim says exactly two startup conditions abort (bind
failure and spawn failure, each with a stage-identifying message, as the
first four conjuncts confirm) and that nothing else aborts — in particular
that a missing env file plus probe exhaustion completes normally (fifth
conjunct).  The code violates the exhaustiveness: a world where bind and
spawn both succeed is still aborted by the env-parser quote panic (final
conjunct), a third abort condition. -/
theorem startup_abort_conditions :
    spawn_backend wBindFail = Except.error StartupAbort.bindFailure ∧
    abortMessage StartupAbort.bindFailure = bindExpectMsg ∧
    spawn_backend wSpawnFail = Except.error StartupAbort.spawnFailure ∧
    abortMessage StartupAbort.spawnFailure = spawnExpectMsg ∧
    exceptIsOk (spawn_backend wOk) = true ∧
    spawn_backend wQuoteBug = Except.error StartupAbort.envParsePanic := by
  exact ⟨rfl, rfl, rfl, rfl, rfl, rfl⟩

/-! ### Inversion of a successful spawn -/

theorem spawn_backend_ok_inv (w : SpawnWorld) (r : SpawnResult)
    (h : spawn_backend w = Except.ok r) :
    ∃ port ovs, w.bindResult = some port ∧ loadOverrides w.fsRead = some ovs ∧
      w.spawnOk = true ∧
      r = ⟨port, ovs.map ovToString,
           composeChildEnv w.parentEnv port (ovs.map ovToString),
           urlBase ++ Nat.repr port ++ healthPath,
           (wait_ready w.probe).1, (wait_ready w.probe).2.2⟩ := by
  simp only [spawn_backend] at h
  split at h
  · exact Except.noConfusion h
  · rename_i port hb
    split at h
    · exact Except.noConfusion h
    · rename_i ovs ho
      split at h
      · rename_i hs
        exact ⟨port, ovs, hb, ho, hs, (Except.ok.inj h).symm⟩
      · exact Except.noConfusion h

/-- Claim C6: the backend-URL query returns the string http://127.0.0.1:
followed by the decimal digits of the reserved port; that port is exactly
the one handed out at reservation time, the one the probe URL targets, and
(when no override of the file names PORT) the value of the PORT variable
injected into the child environment. -/
theorem backend_url_uses_reserved_port (w : SpawnWorld) (r : SpawnResult)
    (h : spawn_backend w = Except.ok r) :
    get_backend_url r.port = urlBase ++ Nat.repr r.port ∧
    w.bindResult = some r.port ∧
    r.probeUrl = get_backend_url r.port ++ healthPath ∧
    (lastAssoc PORT_KEY r.overrides = none →
      r.childEnv PORT_KEY = some (Nat.repr r.port)) := by
  obtain ⟨port, ovs, hb, ho, hs, hr⟩ := spawn_backend_ok_inv w r h
  subst hr
  refine ⟨rfl, hb, rfl, ?_⟩
  intro hnone
  have hnone2 : lastAssoc PORT_KEY (ovs.map ovToString) = none := hnone
  show applyOverrides (envSet w.parentEnv PORT_KEY (Nat.repr port))
    (ovs.map ovToString) PORT_KEY = some (Nat.repr port)
  rw [applyOverrides_of_lastAssoc_none _ _ _ hnone2]
  simp [envSet]

set_option maxRecDepth 8000 in
theorem backend_url_uses_reserved_port_witness :
    wOk.bindResult = some rOk.port ∧
    rOk.probeUrl = get_backend_url rOk.port ++ healthPath ∧
    rOk.childEnv PORT_KEY = some (Nat.repr rOk.port) := by
  have h := backend_url_uses_reserved_port wOk rOk rfl
  exact ⟨h.2.1, h.2.2.1, h.2.2.2 rfl⟩

/-! ### The PORT-override scenario -/

def portLineS : String := "PORT=9999"

def port9999S : String := "9999"

/-- A filesystem whose first candidate env file sets PORT to 9999. -/
def fsPortOv : String → Option (List Char) :=
  fun p => if p = envCandidate1 then some (String.toList portLineS) else none

def wPortOv : SpawnWorld := ⟨some 4321, fsPortOv, true, probeNever, emptyEnv⟩

/-- The result `spawn_backend` produces on `wPortOv`. -/
def rPortOv : SpawnResult :=
  ⟨4321, [(PORT_KEY, port9999S)],
   composeChildEnv emptyEnv 4321 [(PORT_KEY, port9999S)],
   urlBase ++ Nat.repr 4321 ++ healthPath, 100, false⟩

/-- Claim C10 (implicit): when the loaded overrides contain an entry whose
key is PORT, its (last) value wins in the child environment — the child sees
the file value, not the reserved port — while the probe URL and the exposed
backend URL keep using the reserved port, so they can refer to a port the
backend never binds. -/
theorem port_override_shadows_reserved (w : SpawnWorld) (r : SpawnResult)
    (v : String) (h : spawn_backend w = Except.ok r)
    (hv : lastAssoc PORT_KEY r.overrides = some v) :
    r.childEnv PORT_KEY = some v ∧
    r.probeUrl = urlBase ++ Nat.repr r.port ++ healthPath ∧
    get_backend_url r.port = urlBase ++ Nat.repr r.port ∧
    (v ≠ Nat.repr r.port → r.childEnv PORT_KEY ≠ some (Nat.repr r.port)) := by
  obtain ⟨port, ovs, hb, ho, hs, hr⟩ := spawn_backend_ok_inv w r h
  subst hr
  have hv2 : lastAssoc PORT_KEY (ovs.map ovToString) = some v := hv
  have hchild : applyOverrides (envSet w.parentEnv PORT_KEY (Nat.repr port))
      (ovs.map ovToString) PORT_KEY = some v :=
    applyOverrides_of_lastAssoc_some _ _ _ _ hv2
  refine ⟨hchild, rfl, rfl, ?_⟩
  intro hne hcontra
  exact hne (Option.some.inj (hchild.symm.trans hcontra))

set_option maxRecDepth 8000 in
theorem port_override_shadows_reserved_witness :
    rPortOv.childEnv PORT_KEY = some port9999S ∧
    rPortOv.childEnv PORT_KEY ≠ some (Nat.repr rPortOv.port) ∧
    rPortOv.probeUrl = urlBase ++ Nat.repr rPortOv.port ++ healthPath := by
  have h := port_override_shadows_reserved wPortOv rPortOv port9999S rfl (by decide)
  exact ⟨h.1, h.2.2.2 (by decide), h.2.1⟩

end PersonalCRM
